import Mathlib

set_option linter.unusedVariables false
set_option linter.unnecessarySimpa false

/-!
Verification of the deferred-expression core of a backend-agnostic dataframe
layer (`pandas_standard.py`).  The embedding models nullable ("extension
dtype") columns: a slot is either a missing value (`null`, pandas `pd.NA`), a
floating NaN (`nan`, a present-but-not-a-number value, distinct from `null`),
a numeric value (modelled as an integer; the null/NaN logic and the
algebraic identities under scrutiny are value-representation independent), or
a boolean.  Elementary
pandas/numpy calls appearing in the source (`isna`, `np.isnan`, `fillna`,
masked assignment, `sort_values`, groupby aggregation) are modelled per-slot
by the cell functions below, following the nullable-dtype semantics the
source's branches rely on.
-/

namespace DFCompat

/-- One slot of a nullable column: missing (`pd.NA`), floating NaN,
a numeric value, or a boolean. -/
inductive Cell where
  | null : Cell
  | nan : Cell
  | num : ℤ → Cell
  | bool : Bool → Cell
  deriving DecidableEq, Repr

/-- A pandas Series: a name and a positionally (canonically) indexed sequence
of slots.  The canonical 0-based index is implicit in the list. -/
structure Series where
  name : String
  data : List Cell
  deriving DecidableEq, Repr

/-- Models `ser.rename(n)`. -/
def Series.rename (s : Series) (n : String) : Series :=
  { s with name := n }

/-! ### Elementary per-slot operations (the "elementary operation capability") -/

/-- Numeric comparison of two slots, null-propagating; NaN compares false
(as floating NaN does).  Used by the comparison steps. -/
def cellCmp (f : ℤ → ℤ → Bool) : Cell → Cell → Cell
  | Cell.null, _ => Cell.null
  | _, Cell.null => Cell.null
  | Cell.nan, _ => Cell.bool false
  | _, Cell.nan => Cell.bool false
  | Cell.num a, Cell.num b => Cell.bool (f a b)
  | Cell.bool a, Cell.bool b => Cell.bool (f (if a then 1 else 0) (if b then 1 else 0))
  | _, _ => Cell.null

def cellEq (a b : Cell) : Cell := cellCmp (fun x y => x == y) a b
def cellNe (a b : Cell) : Cell := cellCmp (fun x y => x != y) a b
def cellLt (a b : Cell) : Cell := cellCmp (fun x y => decide (x < y)) a b
def cellLe (a b : Cell) : Cell := cellCmp (fun x y => decide (x ≤ y)) a b
def cellGt (a b : Cell) : Cell := cellCmp (fun x y => decide (y < x)) a b
def cellGe (a b : Cell) : Cell := cellCmp (fun x y => decide (y ≤ x)) a b

/-- Kleene conjunction on nullable booleans (pandas `boolean` dtype `&`). -/
def cellAnd : Cell → Cell → Cell
  | Cell.bool false, _ => Cell.bool false
  | _, Cell.bool false => Cell.bool false
  | Cell.bool true, Cell.bool true => Cell.bool true
  | _, _ => Cell.null

/-- Kleene disjunction on nullable booleans (pandas `boolean` dtype `|`). -/
def cellOr : Cell → Cell → Cell
  | Cell.bool true, _ => Cell.bool true
  | _, Cell.bool true => Cell.bool true
  | Cell.bool false, Cell.bool false => Cell.bool false
  | _, _ => Cell.null

/-- Binary numeric operation, null- and NaN-propagating. -/
def cellArith (f : ℤ → ℤ → Cell) : Cell → Cell → Cell
  | Cell.null, _ => Cell.null
  | _, Cell.null => Cell.null
  | Cell.nan, _ => Cell.nan
  | _, Cell.nan => Cell.nan
  | Cell.num a, Cell.num b => f a b
  | _, _ => Cell.null

def cellAdd (a b : Cell) : Cell := cellArith (fun x y => Cell.num (x + y)) a b
def cellSub (a b : Cell) : Cell := cellArith (fun x y => Cell.num (x - y)) a b
def cellMul (a b : Cell) : Cell := cellArith (fun x y => Cell.num (x * y)) a b

/-- Floor division `//`; division by zero yields NaN (never exercised by the
claims, which hypothesise non-zero divisors). -/
def cellFloordiv (a b : Cell) : Cell :=
  cellArith (fun x y => if y == 0 then Cell.nan else Cell.num (Int.fdiv x y)) a b

/-- Python `%`: `a - b * (a // b)`. -/
def cellMod (a b : Cell) : Cell :=
  cellArith (fun x y => if y == 0 then Cell.nan else Cell.num (x - y * Int.fdiv x y)) a b

/-- Models `~ser` on nullable booleans. -/
def cellNot : Cell → Cell
  | Cell.bool b => Cell.bool (!b)
  | _ => Cell.null

/-- Models `ser.isna()` on an extension-dtype column: true exactly on the missing
(`pd.NA`) slots; a NaN slot is a present value and reports false. -/
def cellIsNull (c : Cell) : Cell :=
  Cell.bool (c == Cell.null)

/-- One slot of `np.isnan(ser).replace(pd.NA, False).astype(bool)`
(the extension-dtype branch of `is_nan`): `np.isnan` is true on a NaN slot,
propagates `pd.NA` on a missing slot — which `.replace(pd.NA, False)` turns
into false — and is false on any present value. -/
def cellIsNan (c : Cell) : Cell :=
  Cell.bool (c == Cell.nan)

/-- One slot of `fill_nan`'s masked assignment
`ser[np.isnan(ser).fillna(False).to_numpy(bool)] = value`: exactly the NaN
slots receive `value`; missing and present slots are untouched. -/
def cellFillNan (v : Cell) (c : Cell) : Cell :=
  if c == Cell.nan then v else c

/-- One slot of `fill_null`'s extension-dtype branch
(`num = where(isnan_mask, 0, ser.fillna(value))`,
`other = where(isnan_mask, 0, 1)`, result `num / other`): a NaN slot becomes
`0 / 0 = NaN` (preserved), a missing slot becomes `value / 1 = value`, and a
present slot `x` stays `x / 1 = x`. -/
def cellFillNull (v : Cell) (c : Cell) : Cell :=
  match c with
  | Cell.null => v
  | c => c

/-- The sort key of a slot for `sort_values`: numeric values and booleans are
ordered by value; missing and NaN slots have no key and are sent to the
`na_position` end. -/
def cellSortVal : Cell → Option ℤ
  | Cell.num q => some q
  | Cell.bool b => some (if b then 1 else 0)
  | _ => none

/-- A slot without a sort key (null or NaN), i.e. one `sort_values` treats as
missing. -/
def cellMissing (c : Cell) : Bool :=
  (cellSortVal c).isNone

/-! ### Sorting (models `sort_values` with its default `na_position="last"`) -/

def sortLe (asc : Bool) (a b : Cell) : Bool :=
  match cellSortVal a, cellSortVal b with
  | some x, some y => if asc then decide (x ≤ y) else decide (y ≤ x)
  | _, _ => true

def orderedInsert (le : Cell → Cell → Bool) (c : Cell) : List Cell → List Cell
  | [] => [c]
  | x :: xs => if le c x then c :: x :: xs else x :: orderedInsert le c xs

def insertionSort (le : Cell → Cell → Bool) : List Cell → List Cell
  | [] => []
  | x :: xs => orderedInsert le x (insertionSort le xs)

/-- Models `ser.sort_values(ascending=asc)` with the engine's default
`na_position="last"`: the slots carrying a sort key are ordered by it, and all
missing (null/NaN) slots are appended after them. -/
def sortCells (asc : Bool) (l : List Cell) : List Cell :=
  insertionSort (sortLe asc) (l.filter (fun c => !cellMissing c))
    ++ l.filter cellMissing

def orderedInsertIdx (le : Nat → Nat → Bool) (c : Nat) : List Nat → List Nat
  | [] => [c]
  | x :: xs => if le c x then c :: x :: xs else x :: orderedInsertIdx le c xs

def insertionSortIdx (le : Nat → Nat → Bool) : List Nat → List Nat
  | [] => []
  | x :: xs => orderedInsertIdx le x (insertionSortIdx le xs)

/-- Slot comparison for index sorting with missing (null/NaN) positions
ordered after all keyed positions, as `sort_values()`' default
`na_position="last"` does. -/
def cellNaLastLe (a b : Cell) : Bool :=
  match cellSortVal a, cellSortVal b with
  | some x, some y => decide (x ≤ y)
  | some _, none => true
  | none, some _ => false
  | none, none => true

/-- Models `ser.sort_values().index`: the original positions of the slots in
ascending sorted order, missing slots' positions last. -/
def sortedIndicesList (l : List Cell) : List Nat :=
  insertionSortIdx
    (fun i j => cellNaLastLe (l.getD i Cell.null) (l.getD j Cell.null))
    (List.range l.length)

/-! ### Series-level helpers -/

/-- Positional alignment of two equal-length columns; a missing position on
either side (only possible on unequal lengths, which the claims exclude)
contributes a missing value, as index alignment would. -/
def zipPad (f : Cell → Cell → Cell) : List Cell → List Cell → List Cell
  | [], bs => bs.map (fun b => f Cell.null b)
  | a :: as_, [] => f a Cell.null :: zipPad f as_ []
  | a :: as_, b :: bs => f a b :: zipPad f as_ bs

/-! ### Errors and resolution values

Python exceptions are mapped to the spec's error taxonomy:
`columnNotFound` is the `KeyError` of a missing root or selected column;
`duplicateNames` is the constructor-time
`ValueError("Expected unique column names ...")`; `assertionFailed` is the
`AssertionError` of `PandasGroupBy._validate_result`; `typeErr` covers
`TypeError`s (including calling a `None` base_call, applying a step to a
non-Series left value, and the broken `PandasColumn.filter`);
`attributeErr` is Python's `AttributeError` — in `update_columns`' missing
target branch, building the message of the intended
`ValueError(f"column {col.name} not in dataframe, ...")` evaluates
`col.name` on a `PandasExpression`, which has no `name` attribute, so an
AttributeError escapes before the ValueError is ever constructed. -/

inductive PdError where
  | columnNotFound : PdError
  | typeErr : PdError
  | duplicateNames : PdError
  | unsupportedVersion : PdError
  | notImplemented : PdError
  | assertionFailed : PdError
  | valueErr : PdError
  | attributeErr : PdError
  deriving DecidableEq, Repr

/-- A resolution-time value: a concrete Series, a plain scalar (scalars pass
through resolution unchanged), or Python's `None` (the `rhs` of a unary
step). -/
inductive RVal where
  | series : Series → RVal
  | scalar : Cell → RVal
  | pyNone : RVal
  deriving DecidableEq, Repr

/-! ### The expression chain

`PandasExpression.__init__` stores `root_names`, `output_name`, an optional
`base_call` and a list of steps; `_record_call` appends
`(func, self, rhs)` — the *previous expression object* is stored as the
step's left operand — and returns a new `PandasExpression` whose `base_call`
is `None`.  The recorded `func`s are the closures of the source, identified
here by the `EOp` tag they were built from (the closure's captured arguments
become the tag's fields). -/

inductive EOp where
  | eq | ne | ge | gt | le | lt
  | andOp | orOp
  | add | sub | mul | floordiv | mod
  | filterRows
  | invertOp
  | isNullOp | isNanOp
  | fillNanOp : Cell → EOp
  | fillNullOp : Cell → EOp
  | sortOp : Bool → EOp
  | sortedIndicesOp : Bool → EOp
  | renameOp : String → EOp
  deriving DecidableEq, Repr

/-- The two shapes of `base_call` occurring in the system: the namespace's
bare column reference (`lambda df: df.loc[:, name]`) and
`PandasColumn._to_expression`'s `lambda _df: self.column.rename(self.name)`,
which ignores the table and returns a fixed series. -/
inductive BaseCall where
  | colRef : String → BaseCall
  | lit : Series → BaseCall
  deriving DecidableEq, Repr

mutual
inductive PandasExpression where
  | mk : Option (List String) → String → Option BaseCall → List CallStep →
      PandasExpression
  deriving Repr

inductive CallStep where
  | mk : EOp → PandasExpression → Operand → CallStep
  deriving Repr

/-- An operand of a step, as classified at resolution time: another
expression, a concrete column, a plain scalar, or Python `None`. -/
inductive Operand where
  | expr : PandasExpression → Operand
  | column : Series → Operand
  | scalar : Cell → Operand
  | noRhs : Operand
  deriving Repr
end

def PandasExpression.rootNames : PandasExpression → Option (List String)
  | .mk rn _ _ _ => rn

def PandasExpression.outputName : PandasExpression → String
  | .mk _ oname _ _ => oname

def PandasExpression.baseCall : PandasExpression → Option BaseCall
  | .mk _ _ bc _ => bc

def PandasExpression.calls : PandasExpression → List CallStep
  | .mk _ _ _ cs => cs

/-- Transcribes `PandasExpression._record_call(func, rhs, output_name)`: appends the step
`(func, self, rhs)` and returns a new expression with the same `root_names`,
`output_name` replaced only when one is supplied, and `base_call=None`. -/
def PandasExpression.recordCall (e : PandasExpression) (op : EOp) (rhs : Operand)
    (outName : Option String) : PandasExpression :=
  PandasExpression.mk e.rootNames (outName.getD e.outputName) none
    (e.calls ++ [CallStep.mk op e rhs])

/-! The chaining methods of `PandasExpression`; each transcribes one method of
the source (none supplies an `output_name` to `_record_call`). -/

def PandasExpression.eqE (e : PandasExpression) (other : Operand) : PandasExpression :=
  e.recordCall EOp.eq other none

def PandasExpression.neE (e : PandasExpression) (other : Operand) : PandasExpression :=
  e.recordCall EOp.ne other none

def PandasExpression.geE (e : PandasExpression) (other : Operand) : PandasExpression :=
  e.recordCall EOp.ge other none

def PandasExpression.gtE (e : PandasExpression) (other : Operand) : PandasExpression :=
  e.recordCall EOp.gt other none

def PandasExpression.leE (e : PandasExpression) (other : Operand) : PandasExpression :=
  e.recordCall EOp.le other none

def PandasExpression.ltE (e : PandasExpression) (other : Operand) : PandasExpression :=
  e.recordCall EOp.lt other none

def PandasExpression.andE (e : PandasExpression) (other : Operand) : PandasExpression :=
  e.recordCall EOp.andOp other none

def PandasExpression.orE (e : PandasExpression) (other : Operand) : PandasExpression :=
  e.recordCall EOp.orOp other none

def PandasExpression.addE (e : PandasExpression) (other : Operand) : PandasExpression :=
  e.recordCall EOp.add other none

def PandasExpression.subE (e : PandasExpression) (other : Operand) : PandasExpression :=
  e.recordCall EOp.sub other none

def PandasExpression.mulE (e : PandasExpression) (other : Operand) : PandasExpression :=
  e.recordCall EOp.mul other none

def PandasExpression.floordivE (e : PandasExpression) (other : Operand) : PandasExpression :=
  e.recordCall EOp.floordiv other none

def PandasExpression.modE (e : PandasExpression) (other : Operand) : PandasExpression :=
  e.recordCall EOp.mod other none

def PandasExpression.filterE (e : PandasExpression) (mask : Operand) : PandasExpression :=
  e.recordCall EOp.filterRows mask none

def PandasExpression.invertE (e : PandasExpression) : PandasExpression :=
  e.recordCall EOp.invertOp Operand.noRhs none

def PandasExpression.isNullE (e : PandasExpression) : PandasExpression :=
  e.recordCall EOp.isNullOp Operand.noRhs none

def PandasExpression.isNanE (e : PandasExpression) : PandasExpression :=
  e.recordCall EOp.isNanOp Operand.noRhs none

def PandasExpression.fillNanE (e : PandasExpression) (v : Cell) : PandasExpression :=
  e.recordCall (EOp.fillNanOp v) Operand.noRhs none

def PandasExpression.fillNullE (e : PandasExpression) (v : Cell) : PandasExpression :=
  e.recordCall (EOp.fillNullOp v) Operand.noRhs none

/-- Transcribes `PandasExpression.sort(ascending, nulls_position)`: the recorded closure
is `ser.sort_values(ascending=ascending).reset_index(drop=True)` — the
`nulls_position` argument is accepted but does not reach the closure. -/
def PandasExpression.sortE (e : PandasExpression) (ascending : Bool)
    (nullsPosition : String) : PandasExpression :=
  e.recordCall (EOp.sortOp ascending) Operand.noRhs none

/-- Transcribes `PandasExpression.sorted_indices(ascending, nulls_position)`:
the recorded closure is `ser.sort_values().index.to_series()` (reversed and
re-indexed when descending); `nulls_position` is accepted but does not reach
the closure, and the result names no longer correspond to the original
column. -/
def PandasExpression.sortedIndicesE (e : PandasExpression) (ascending : Bool)
    (nullsPosition : String) : PandasExpression :=
  e.recordCall (EOp.sortedIndicesOp ascending) Operand.noRhs none

/-- Transcribes `PandasExpression.rename(name)`: records `ser.rename(name)` but passes no
`output_name` to `_record_call`, so the new expression keeps the old
`output_name`. -/
def PandasExpression.renameE (e : PandasExpression) (n : String) : PandasExpression :=
  e.recordCall (EOp.renameOp n) Operand.noRhs none

/-- Transcribes `__divmod__`: `quotient = self // other; remainder = self - quotient *
other` — a derived pair of two expressions, not a primitive step. -/
def PandasExpression.divmodE (e : PandasExpression) (other : Operand) :
    PandasExpression × PandasExpression :=
  let quotient := e.floordivE other
  let remainder := e.subE (Operand.expr (quotient.mulE other))
  (quotient, remainder)

/-- Modelled from the spec: the namespace's bare column-reference constructor
(`col(name)`), whose module is not under `src/` — "a bare column reference
becomes an expression" via an Expression with `root_names` `[name]`,
`output_name` `name`, an empty step list, and a `base_call` that selects that
column from the bound table. -/
def colExpr (name : String) : PandasExpression :=
  PandasExpression.mk (some [name]) name (some (BaseCall.colRef name)) []

/-! ### Applying one recorded step

Each recorded closure takes the resolved left value (a Series in every code
path the source constructs) and the resolved right value.  Binary closures
broadcast a scalar right operand and align a Series right operand
positionally; every closure except `rename`'s ends in `.rename(ser.name)` (or
is a pandas call that keeps the name), so the left operand's name is
preserved. -/

/-- Elementwise application of a binary slot operation, broadcasting a scalar
right operand; the result carries the left Series' name (the closures'
`.rename(ser.name)`). -/
def seriesBinOp (f : Cell → Cell → Cell) (s : Series) (r : RVal) :
    Except PdError Series :=
  match r with
  | RVal.series t => Except.ok (Series.mk s.name (zipPad f s.data t.data))
  | RVal.scalar c => Except.ok (Series.mk s.name (s.data.map (fun a => f a c)))
  | RVal.pyNone => Except.error PdError.typeErr

/-- Models `ser.loc[mask]`: keep the slots whose mask slot is `True`. -/
def seriesFilter (s : Series) (r : RVal) : Except PdError Series :=
  match r with
  | RVal.series m =>
      Except.ok (Series.mk s.name
        ((s.data.zip m.data).filterMap
          (fun p => if p.2 == Cell.bool true then some p.1 else none)))
  | _ => Except.error PdError.typeErr

/-- Apply one step's closure to the resolved left and right values. -/
def applySeries (op : EOp) (s : Series) (r : RVal) : Except PdError Series :=
  match op with
  | EOp.eq => seriesBinOp cellEq s r
  | EOp.ne => seriesBinOp cellNe s r
  | EOp.ge => seriesBinOp cellGe s r
  | EOp.gt => seriesBinOp cellGt s r
  | EOp.le => seriesBinOp cellLe s r
  | EOp.lt => seriesBinOp cellLt s r
  | EOp.andOp => seriesBinOp cellAnd s r
  | EOp.orOp => seriesBinOp cellOr s r
  | EOp.add => seriesBinOp cellAdd s r
  | EOp.sub => seriesBinOp cellSub s r
  | EOp.mul => seriesBinOp cellMul s r
  | EOp.floordiv => seriesBinOp cellFloordiv s r
  | EOp.mod => seriesBinOp cellMod s r
  | EOp.filterRows => seriesFilter s r
  | EOp.invertOp => Except.ok (Series.mk s.name (s.data.map cellNot))
  | EOp.isNullOp => Except.ok (Series.mk s.name (s.data.map cellIsNull))
  | EOp.isNanOp => Except.ok (Series.mk s.name (s.data.map cellIsNan))
  | EOp.fillNanOp v => Except.ok (Series.mk s.name (s.data.map (cellFillNan v)))
  | EOp.fillNullOp v =>
      -- fill_null's extension-dtype closure returns `num / other`, both built
      -- from fresh unnamed pd.Series, so the result carries no name (pandas
      -- name None, the spec's canonical empty marker).
      Except.ok (Series.mk "" (s.data.map (cellFillNull v)))
  | EOp.sortOp asc => Except.ok (Series.mk s.name (sortCells asc s.data))
  | EOp.sortedIndicesOp asc =>
      -- sorted_indices' closure returns `ser.sort_values().index.to_series()`
      -- (reversed when descending): the values are the original positions and
      -- the name is the positional index's (none), not the operand's.
      Except.ok (Series.mk ""
        ((if asc then sortedIndicesList s.data
          else (sortedIndicesList s.data).reverse).map
          (fun i => Cell.num (Int.ofNat i))))
  | EOp.renameOp n => Except.ok (s.rename n)

/-- A step's closure applied to the two resolved values; the source's
closures all start by operating on the left value as a Series, so a
non-Series left value is a `TypeError`. -/
def applyCall (op : EOp) (l r : RVal) : Except PdError RVal :=
  match l with
  | RVal.series s => (applySeries op s r).map RVal.series
  | _ => Except.error PdError.typeErr

/-! ### The table -/

def LATEST_API_VERSION : String := "2023.08-beta"

def supportedVersions : List String := ["2023.08-beta", "2023.09-beta"]

/-- A `PandasDataFrame`: an ordered collection of equal-length columns plus
the `api_version` it was constructed with.  The canonical row index is
implicit. -/
structure PandasDF where
  cols : List Series
  apiVersion : String
  deriving DecidableEq, Repr

def PandasDF.names (df : PandasDF) : List String :=
  df.cols.map Series.name

/-- Models `df.loc[:, name]` / `dataframe[name]`: the column of that name (column
names are unique in a validated frame). -/
def PandasDF.lookup (df : PandasDF) (n : String) : Option Series :=
  df.cols.find? (fun c => c.name == n)

/-- The duplicate detection of `_validate_columns` (a `collections.Counter`
finding any name with count > 1).  The companion non-string-name check is
vacuous here, where names are strings by type. -/
def hasDuplicate : List String → Bool
  | [] => false
  | x :: xs => xs.contains x || hasDuplicate xs

/-- Transcribes `PandasDataFrame.__init__`: validate column names, normalize the index
(implicit here), then check the api version. -/
def mkPandasDataFrame (cols : List Series) (apiVersion : String) :
    Except PdError PandasDF :=
  if hasDuplicate (cols.map Series.name) then Except.error PdError.duplicateNames
  else if supportedVersions.contains apiVersion then
    Except.ok (PandasDF.mk cols apiVersion)
  else Except.error PdError.unsupportedVersion

/-! ### Resolution (`PandasDataFrame._resolve_expression`)

The source: a `PandasColumn` operand resolves to its backing series, a
non-expression operand (a scalar, or `None`) passes through, an expression
with no steps invokes its `base_call` on the table, and otherwise the loop
`for func, lhs, rhs in expression._calls` resolves each step's stored left
expression and right operand recursively and applies the closure, the loop
variable keeping only the last application — whose stored left expression is
the whole prefix chain, resolved recursively. -/

def resolveBase (df : PandasDF) : Option BaseCall → Except PdError RVal
  | none => Except.error PdError.typeErr
  | some (BaseCall.colRef n) =>
      match df.lookup n with
      | some s => Except.ok (RVal.series s)
      | none => Except.error PdError.columnNotFound
  | some (BaseCall.lit s) => Except.ok (RVal.series s)

mutual
def resolveExpr (df : PandasDF) : PandasExpression → Except PdError RVal
  | PandasExpression.mk _ _ bc cs =>
      match cs with
      | [] => resolveBase df bc
      | c :: rest => resolveLoop df (resolveStep df c) rest

/-- The `for` loop of `_resolve_expression`: each iteration computes the
step's value; only the last iteration's value is returned (earlier steps are
reached again through the last step's stored left expression). -/
def resolveLoop (df : PandasDF) (acc : Except PdError RVal) :
    List CallStep → Except PdError RVal
  | [] => acc
  | c :: rest => resolveLoop df (resolveStep df c) rest

def resolveStep (df : PandasDF) : CallStep → Except PdError RVal
  | CallStep.mk op lhs rhs => do
      let l ← resolveExpr df lhs
      let r ← resolveOperand df rhs
      applyCall op l r

def resolveOperand (df : PandasDF) : Operand → Except PdError RVal
  | Operand.expr e => resolveExpr df e
  | Operand.column s => Except.ok (RVal.series s)
  | Operand.scalar c => Except.ok (RVal.scalar c)
  | Operand.noRhs => Except.ok RVal.pyNone
end

/-- Transcribes `_resolve_expression` with its mutable state — the expression object and
the receiver table — threaded explicitly.  The body reads
`expression._calls`, `expression._base_call` and `self.dataframe` and writes
only local variables (the loop rebinds the local names `lhs`, `rhs`,
`expression`), so each branch returns the received expression and table
unchanged alongside the result. -/
def resolveSt (df : PandasDF) (e : PandasExpression) :
    Except PdError RVal × PandasExpression × PandasDF :=
  match e with
  | PandasExpression.mk rn oname bc cs =>
      match cs with
      | [] => (resolveBase df bc, PandasExpression.mk rn oname bc cs, df)
      | c :: rest =>
          (resolveLoop df (resolveStep df c) rest,
           PandasExpression.mk rn oname bc cs, df)

/-! ### Table operations -/

/-- An entry of `select`'s argument list: a plain name (direct column lookup)
or an expression (resolved against the receiver). -/
inductive SelectItem where
  | name : String → SelectItem
  | expr : PandasExpression → SelectItem

/-- One entry of `select`: `df.loc[:, name]` for a string, resolution for an
expression; `pd.concat` requires columnar entries, so a scalar result is a
`TypeError`. -/
def PandasDF.selectResolve (df : PandasDF) : SelectItem → Except PdError Series
  | SelectItem.name n =>
      match df.lookup n with
      | some s => Except.ok s
      | none => Except.error PdError.columnNotFound
  | SelectItem.expr e =>
      match resolveExpr df e with
      | Except.ok (RVal.series s) => Except.ok s
      | Except.ok _ => Except.error PdError.typeErr
      | Except.error er => Except.error er

/-- Transcribes `PandasDataFrame.select`: resolve each entry, concatenate positionally,
and construct (running the constructor-time validations). -/
def PandasDF.selectE (df : PandasDF) (items : List SelectItem) :
    Except PdError PandasDF := do
  let cols ← items.mapM df.selectResolve
  mkPandasDataFrame cols df.apiVersion

/-- Transcribes `PandasDataFrame.insert_column`: resolve, concatenate the new column
after the existing ones, and construct — so a resolved name equal to an
existing column name is caught by the constructor's duplicate-name
validation.  (The api-version gate in the source is commented out.) -/
def PandasDF.insertColumn (df : PandasDF) (value : PandasExpression) :
    Except PdError PandasDF := do
  match ← resolveExpr df value with
  | RVal.series s => mkPandasDataFrame (df.cols ++ [s]) df.apiVersion
  | _ => Except.error PdError.typeErr

/-- Transcribes `PandasDataFrame.update_columns`: under api version
`2023.08-beta` the method raises `NotImplementedError` before anything else;
otherwise each expression is resolved and spliced over the column of the same
name in a local copy.  For a resolved name absent from the copy the source
reaches `raise ValueError(f"column {col.name} not in dataframe, use insert
instead")` — but evaluating the message's `col.name` on the
`PandasExpression` `col`, which has no `name` attribute, raises
AttributeError first, and that is what escapes. -/
def PandasDF.updateColumns (df : PandasDF) (columns : List PandasExpression) :
    Except PdError PandasDF :=
  if df.apiVersion == "2023.08-beta" then Except.error PdError.notImplemented
  else do
    let newCols ← columns.foldlM
      (fun (acc : List Series) col => do
        match ← resolveExpr df col with
        | RVal.series s =>
            if (acc.map Series.name).contains s.name then
              pure (acc.map (fun c => if c.name == s.name then s else c))
            else Except.error PdError.attributeErr
        | _ => Except.error PdError.typeErr)
      df.cols
    mkPandasDataFrame newCols df.apiVersion

def PandasDF.nRows (df : PandasDF) : Nat :=
  (df.cols.head?.map (fun c => c.data.length)).getD 0

/-- The key tuple of row `i` under the given sort/group keys. -/
def keyTupleAt (df : PandasDF) (keys : List String) (i : Nat) : List Cell :=
  keys.map (fun k => ((df.lookup k).map (fun s => s.data.getD i Cell.null)).getD Cell.null)

/-- Lexicographic row comparison for `sort_values`: keyed slots compare by
value (flipped when descending); a missing (null/NaN) slot sorts after every
keyed slot regardless of direction — the engine's default
`na_position="last"`. -/
def rowLe (asc : Bool) : List Cell → List Cell → Bool
  | [], _ => true
  | _ :: _, [] => true
  | a :: as_, b :: bs =>
      match cellSortVal a, cellSortVal b with
      | some x, some y =>
          if x == y then rowLe asc as_ bs
          else if asc then decide (x < y) else decide (y < x)
      | some _, none => true
      | none, some _ => false
      | none, none => rowLe asc as_ bs

/-- Transcribes `PandasDataFrame.sort(keys, ascending=..., nulls_position=...)`: keys
default to all columns; the body is `df.sort_values(keys,
ascending=ascending)` — `nulls_position` is accepted but never forwarded, so
the engine's default null placement (last) always applies. -/
def PandasDF.sortDF (df : PandasDF) (keys : Option (List String))
    (ascending : Bool) (nullsPosition : String) : Except PdError PandasDF :=
  let ks := keys.getD df.names
  let order := insertionSortIdx
    (fun i j => rowLe ascending (keyTupleAt df ks i) (keyTupleAt df ks j))
    (List.range df.nRows)
  mkPandasDataFrame
    (df.cols.map (fun c => Series.mk c.name (order.map (fun i => c.data.getD i Cell.null))))
    df.apiVersion

/-! ### The eager column (`PandasColumn`) -/

/-- A `PandasColumn`: the `_name` field and the backing `_series` (renamed to
`_name` and re-indexed canonically at construction).  After
`PandasColumn.rename` mutates `_name`, the two names can differ. -/
structure PandasColumn where
  name : String
  series : Series
  apiVersion : String
  deriving DecidableEq, Repr

/-- Transcribes `PandasColumn.__init__`: the name is taken from the series (always a
string here, so the non-string check is vacuous; the `name or ""` empty
marker is the identity on strings), the backing series is renamed to it, and
the api version is checked. -/
def mkPandasColumn (column : Series) (apiVersion : String) :
    Except PdError PandasColumn :=
  if supportedVersions.contains apiVersion then
    Except.ok (PandasColumn.mk column.name (column.rename column.name) apiVersion)
  else Except.error PdError.unsupportedVersion

/-- Transcribes `PandasColumn._to_expression`: `root_names=[]`, `output_name=self.name`,
`base_call=lambda _df: self.column.rename(self.name)` — the closure reads the
receiver's current `name`, captured here by value at the (single) point the
source invokes it. -/
def PandasColumn.toExpression (c : PandasColumn) : PandasExpression :=
  PandasExpression.mk (some []) c.name
    (some (BaseCall.lit (c.series.rename c.name))) []

/-- Transcribes `PandasColumn._reuse_expression_implementation`: build an empty frame,
`select` the chained expression against it, `collect()` (which wraps the same
data unchanged), and pull the column named `self.name` out of the result. -/
def PandasColumn.reuseExpr (c : PandasColumn)
    (f : PandasExpression → PandasExpression) : Except PdError PandasColumn := do
  let empty ← mkPandasDataFrame [] c.apiVersion
  let df ← empty.selectE [SelectItem.expr (f c.toExpression)]
  match df.lookup c.name with
  | some s => mkPandasColumn s c.apiVersion
  | none => Except.error PdError.columnNotFound

/-- Transcribes `PandasColumn.__lt__`: `self._reuse_expression_implementation("__lt__",
other)`. -/
def PandasColumn.ltC (c : PandasColumn) (other : Operand) :
    Except PdError PandasColumn :=
  c.reuseExpr (fun e => e.ltE other)

/-- Transcribes `PandasColumn.__gt__`: the source body is
`self._reuse_expression_implementation("__lt__", other)` — it dispatches to
the *less-than* expression step. -/
def PandasColumn.gtC (c : PandasColumn) (other : Operand) :
    Except PdError PandasColumn :=
  c.reuseExpr (fun e => e.ltE other)

/-- Transcribes `PandasColumn.__add__`. -/
def PandasColumn.addC (c : PandasColumn) (other : Operand) :
    Except PdError PandasColumn :=
  c.reuseExpr (fun e => e.addE other)

/-- Transcribes `PandasColumn.filter`: the source body calls
`PandasDataFrame(api_version=self._api_version)` — omitting the required
positional `dataframe` argument, a `TypeError` — and would next access the
absent attribute `self.to_expression`; the produced value is discarded and
the function has no `return` statement (the working implementation is
commented out below it).  The call therefore always raises and never returns
the filtered column. -/
def PandasColumn.filterC (c : PandasColumn) (mask : PandasColumn) :
    Except PdError PandasColumn :=
  Except.error PdError.typeErr

/-- Transcribes `PandasColumn.rename`: the source first executes `self._name = name`,
mutating the receiver, and then returns
`self._reuse_expression_implementation("rename", name=name)` evaluated on the
mutated receiver.  The returned pair is (result, receiver post-state). -/
def PandasColumn.renameC (c : PandasColumn) (n : String) :
    Except PdError PandasColumn × PandasColumn :=
  let receiver := PandasColumn.mk n c.series c.apiVersion
  (receiver.reuseExpr (fun e => e.renameE n), receiver)

/-! ### GroupBy

`PandasGroupBy` stores the source frame and the validated key list; each
aggregation method applies the engine's group-and-aggregate capability and —
with the sole exception of `size` — runs `_validate_result` on the outcome
before wrapping it.  The capability is modelled concretely: rows are grouped
by their key tuple in order of first occurrence (`groupby(..., sort=False,
as_index=False)`), and each non-key column is aggregated per group. -/

structure PandasGroupBy where
  df : PandasDF
  keys : List String
  deriving DecidableEq, Repr

/-- Transcribes `PandasDataFrame.groupby`: every key must name a column (`KeyError`
otherwise); the sequence/str type checks are vacuous for a `List String`. -/
def PandasDF.groupby (df : PandasDF) (keys : List String) :
    Except PdError PandasGroupBy :=
  if keys.all (fun k => df.names.contains k) then
    Except.ok (PandasGroupBy.mk df keys)
  else Except.error PdError.columnNotFound

/-- Key tuples in order of first occurrence (`sort=False`). -/
def dedupFirst (l : List (List Cell)) : List (List Cell) :=
  l.foldl (fun acc x => if acc.contains x then acc else acc ++ [x]) []

def groupTuples (df : PandasDF) (keys : List String) : List (List Cell) :=
  dedupFirst ((List.range df.nRows).map (keyTupleAt df keys))

def groupIdx (df : PandasDF) (keys : List String) (t : List Cell) : List Nat :=
  (List.range df.nRows).filter (fun i => keyTupleAt df keys i == t)

/-- The numeric slots of a group, pandas aggregations skipping missing
values (`skipna` default).  Fractional aggregate values (mean, median, var)
are modelled by their floor; the claims depend only on the result schema. -/
def cellNums (l : List Cell) : List ℤ :=
  l.filterMap (fun c => match c with | Cell.num q => some q | _ => none)

def aggSum (l : List Cell) : Cell := Cell.num (cellNums l).sum
def aggProd (l : List Cell) : Cell := Cell.num (cellNums l).prod

def aggMin (l : List Cell) : Cell :=
  match cellNums l with
  | [] => Cell.null
  | x :: xs => Cell.num (xs.foldl min x)

def aggMax (l : List Cell) : Cell :=
  match cellNums l with
  | [] => Cell.null
  | x :: xs => Cell.num (xs.foldl max x)

def aggMean (l : List Cell) : Cell :=
  match cellNums l with
  | [] => Cell.null
  | qs => Cell.num (Int.fdiv qs.sum (qs.length : ℤ))

def aggMedian (l : List Cell) : Cell :=
  match (cellNums l).mergeSort (fun a b => decide (a ≤ b)) with
  | [] => Cell.null
  | qs =>
      if qs.length % 2 == 1 then Cell.num (qs.getD (qs.length / 2) 0)
      else Cell.num (Int.fdiv (qs.getD (qs.length / 2 - 1) 0 + qs.getD (qs.length / 2) 0) 2)

/-- Sample variance (`ddof=1`); undefined below two observations. -/
def aggVar (l : List Cell) : Cell :=
  match cellNums l with
  | [] => Cell.null
  | [_] => Cell.null
  | qs =>
      let m := Int.fdiv qs.sum (qs.length : ℤ)
      Cell.num (Int.fdiv (qs.map (fun x => (x - m) ^ 2)).sum ((qs.length : ℤ) - 1))

/-- Models `std`, whose square root leaves the modelled value domain; only the
result schema matters to the claims, so the aggregated value is modelled by
the variance. -/
def aggStd (l : List Cell) : Cell := aggVar l

def aggAny (l : List Cell) : Cell :=
  Cell.bool (l.any (fun c => c == Cell.bool true))

def aggAll (l : List Cell) : Cell :=
  Cell.bool (l.all (fun c => !(c == Cell.bool false)))

/-- The engine's group-and-aggregate capability (`grouped.<agg>()` with
`as_index=False`): the key columns, in group order, followed by one
aggregated column per non-key source column. -/
def groupedAgg (f : List Cell → Cell) (df : PandasDF) (keys : List String) :
    List Series :=
  let ts := groupTuples df keys
  keys.mapIdx (fun j k => Series.mk k (ts.map (fun t => t.getD j Cell.null)))
    ++ (df.cols.filter (fun c => !(keys.contains c.name))).map
        (fun c => Series.mk c.name
          (ts.map (fun t => f ((groupIdx df keys t).map (fun i => c.data.getD i Cell.null)))))

/-- Models `grouped.size()`: the key columns plus a single `"size"` column of group
row counts — the non-key source columns do not appear. -/
def groupedSize (df : PandasDF) (keys : List String) : List Series :=
  let ts := groupTuples df keys
  keys.mapIdx (fun j k => Series.mk k (ts.map (fun t => t.getD j Cell.null)))
    ++ [Series.mk "size" (ts.map (fun t => Cell.num ((groupIdx df keys t).length : ℤ)))]

/-- Transcribes `PandasGroupBy._validate_result`: if any source column is missing from
the aggregation result (`df.columns.difference(result.columns)` non-empty),
raise the defensive `AssertionError`. -/
def PandasGroupBy.validateResult (g : PandasGroupBy) (result : List Series) :
    Except PdError Unit :=
  if (g.df.names.filter (fun n => !((result.map Series.name).contains n))).isEmpty then
    Except.ok ()
  else Except.error PdError.assertionFailed

/-- A column of pandas dtype `bool`/`boolean` (booleans, possibly with
missing slots). -/
def seriesIsBoolean (s : Series) : Bool :=
  s.data.all (fun c => match c with
    | Cell.bool _ => true
    | Cell.null => true
    | _ => false)

/-- Transcribes `PandasGroupBy._validate_booleanness`: every non-key column must be of
boolean dtype (`ValueError` otherwise). -/
def PandasGroupBy.validateBooleanness (g : PandasGroupBy) : Except PdError Unit :=
  if (g.df.cols.filter (fun c => !(g.keys.contains c.name))).all seriesIsBoolean then
    Except.ok ()
  else Except.error PdError.valueErr

/-- The aggregation methods `PandasGroupBy` exposes. -/
inductive AggMethod where
  | size | any | all | min | max | sum | prod | median | mean | std | var
  deriving DecidableEq, Repr

/-- The aggregation methods, transcribed one per branch: `size` returns
`self.grouped.size()` wrapped directly; `any`/`all` first check booleanness;
every method except `size` runs `_validate_result` on the aggregation outcome
before wrapping it. -/
def PandasGroupBy.runAgg (g : PandasGroupBy) (m : AggMethod) :
    Except PdError PandasDF :=
  match m with
  | AggMethod.size => mkPandasDataFrame (groupedSize g.df g.keys) g.df.apiVersion
  | AggMethod.any => do
      g.validateBooleanness
      let result := groupedAgg aggAny g.df g.keys
      g.validateResult result
      mkPandasDataFrame result g.df.apiVersion
  | AggMethod.all => do
      g.validateBooleanness
      let result := groupedAgg aggAll g.df g.keys
      g.validateResult result
      mkPandasDataFrame result g.df.apiVersion
  | AggMethod.min => do
      let result := groupedAgg aggMin g.df g.keys
      g.validateResult result
      mkPandasDataFrame result g.df.apiVersion
  | AggMethod.max => do
      let result := groupedAgg aggMax g.df g.keys
      g.validateResult result
      mkPandasDataFrame result g.df.apiVersion
  | AggMethod.sum => do
      let result := groupedAgg aggSum g.df g.keys
      g.validateResult result
      mkPandasDataFrame result g.df.apiVersion
  | AggMethod.prod => do
      let result := groupedAgg aggProd g.df g.keys
      g.validateResult result
      mkPandasDataFrame result g.df.apiVersion
  | AggMethod.median => do
      let result := groupedAgg aggMedian g.df g.keys
      g.validateResult result
      mkPandasDataFrame result g.df.apiVersion
  | AggMethod.mean => do
      let result := groupedAgg aggMean g.df g.keys
      g.validateResult result
      mkPandasDataFrame result g.df.apiVersion
  | AggMethod.std => do
      let result := groupedAgg aggStd g.df g.keys
      g.validateResult result
      mkPandasDataFrame result g.df.apiVersion
  | AggMethod.var => do
      let result := groupedAgg aggVar g.df g.keys
      g.validateResult result
      mkPandasDataFrame result g.df.apiVersion

/-- Which steps' closures keep the left operand's name: every recorded
closure except three ends in `.rename(ser.name)` or is a name-preserving
pandas call; `rename` assigns its argument, while `fill_null`'s
extension-dtype closure and `sorted_indices`' closure return an unnamed
series. -/
def EOp.keepsName : EOp → Bool
  | EOp.renameOp _ => false
  | EOp.fillNullOp _ => false
  | EOp.sortedIndicesOp _ => false
  | _ => true

/-- Predicate for the nulls-first placement: after dropping a leading
run of missing slots no missing slot remains. -/
def nullsAllFirst (l : List Cell) : Bool :=
  (l.dropWhile cellMissing).all (fun c => !cellMissing c)

/-! ### Concrete fixtures used by the claims below -/

def c1Table : PandasDF :=
  PandasDF.mk [Series.mk "a" [Cell.num 1, Cell.num 2]] "2023.09-beta"

def c1Expr : PandasExpression := (colExpr "a").renameE "b"

def c3Col : PandasColumn :=
  PandasColumn.mk "a" (Series.mk "a" [Cell.num 1, Cell.num 2]) "2023.09-beta"

def c4Col : PandasColumn :=
  PandasColumn.mk "a" (Series.mk "a" [Cell.num 1, Cell.num 2, Cell.num 3]) "2023.09-beta"

def c5Frame : PandasDF := PandasDF.mk
  [Series.mk "key" [Cell.num 1, Cell.num 1], Series.mk "b" [Cell.num 1, Cell.num 2]]
  "2023.09-beta"

def c5Group : PandasGroupBy := PandasGroupBy.mk c5Frame ["key"]

def c6Table : PandasDF :=
  PandasDF.mk [Series.mk "x" [Cell.num 1, Cell.nan, Cell.null]] "2023.09-beta"

def c7Table : PandasDF := PandasDF.mk
  [Series.mk "a" [Cell.num 7, Cell.num (-7)], Series.mk "b" [Cell.num 2, Cell.num 3]]
  "2023.09-beta"

def c8Table : PandasDF := PandasDF.mk [Series.mk "a" [Cell.num 1]] "2023.08-beta"

def c8Expr : PandasExpression := (colExpr "a").renameE "zzz"

def c8OkTable : PandasDF :=
  PandasDF.mk [Series.mk "a" [Cell.num 1], Series.mk "b" [Cell.num 5]] "2023.09-beta"

def c9Table : PandasDF :=
  PandasDF.mk [Series.mk "a" [Cell.null, Cell.num 1, Cell.num 2]] "2023.09-beta"

def c10Table : PandasDF :=
  PandasDF.mk [Series.mk "a" [Cell.num 1], Series.mk "b" [Cell.num 5]] "2023.09-beta"

/-! ### General lemmas about resolution -/

theorem resolveLoop_last (df : PandasDF) (acc : Except PdError RVal)
    (l : List CallStep) (c : CallStep) :
    resolveLoop df acc (l ++ [c]) = resolveStep df c := by
  induction l generalizing acc with
  | nil => simp [resolveLoop]
  | cons h t ih => simpa [resolveLoop] using ih (resolveStep df h)

theorem resolveExpr_appendStep (df : PandasDF) (rn : Option (List String))
    (oname : String) (bc : Option BaseCall) (cs : List CallStep) (c : CallStep) :
    resolveExpr df (PandasExpression.mk rn oname bc (cs ++ [c])) = resolveStep df c := by
  cases cs with
  | nil => simp [resolveExpr, resolveLoop]
  | cons h t =>
      show resolveLoop df (resolveStep df h) (t ++ [c]) = resolveStep df c
      exact resolveLoop_last df _ t c

/-- Resolution of a chained expression: the final step's closure is applied
to the resolution of the embedded previous expression and of the right
operand (the source's loop re-resolves the stored left prefix at each step
and keeps only the last application). -/
theorem resolveExpr_recordCall (df : PandasDF) (e : PandasExpression) (op : EOp)
    (rhs : Operand) (onm : Option String) :
    resolveExpr df (e.recordCall op rhs onm) =
      (do
        let l ← resolveExpr df e
        let r ← resolveOperand df rhs
        applyCall op l r) := by
  obtain ⟨rn, oname, bc, cs⟩ := e
  simp only [PandasExpression.recordCall, PandasExpression.rootNames,
    PandasExpression.outputName, PandasExpression.calls]
  rw [resolveExpr_appendStep]
  rfl

theorem resolveOperand_exprArg (df : PandasDF) (e : PandasExpression) :
    resolveOperand df (Operand.expr e) = resolveExpr df e := rfl

theorem resolveExpr_colExpr (df : PandasDF) (n : String) (s : Series)
    (h : df.lookup n = some s) :
    resolveExpr df (colExpr n) = Except.ok (RVal.series s) := by
  simp [colExpr, resolveExpr, resolveBase, h]

/-! ### Lemmas about elementwise application -/

theorem zipPad_getElem? (f : Cell → Cell → Cell) :
    ∀ (a b : List Cell) (i : Nat) (x y : Cell),
      a[i]? = some x → b[i]? = some y → (zipPad f a b)[i]? = some (f x y)
  | [], _, i, x, y, ha, _ => by simp at ha
  | _ :: _, [], _, x, y, _, hb => by simp at hb
  | a :: as_, b :: bs, 0, x, y, ha, hb => by
      simp only [List.getElem?_cons_zero, Option.some.injEq] at ha hb
      simp [zipPad, ha, hb]
  | a :: as_, b :: bs, i + 1, x, y, ha, hb => by
      simp only [List.getElem?_cons_succ] at ha hb
      simpa [zipPad] using zipPad_getElem? f as_ bs i x y ha hb

theorem seriesBinOp_name (f : Cell → Cell → Cell) (s : Series) (r : RVal)
    (t : Series) (h : seriesBinOp f s r = Except.ok t) : t.name = s.name := by
  cases r with
  | series m => simp only [seriesBinOp, Except.ok.injEq] at h; rw [← h]
  | scalar c => simp only [seriesBinOp, Except.ok.injEq] at h; rw [← h]
  | pyNone => simp [seriesBinOp] at h

theorem seriesFilter_name (s : Series) (r : RVal) (t : Series)
    (h : seriesFilter s r = Except.ok t) : t.name = s.name := by
  cases r with
  | series m => simp only [seriesFilter, Except.ok.injEq] at h; rw [← h]
  | scalar c => simp [seriesFilter] at h
  | pyNone => simp [seriesFilter] at h

/-- Every name-keeping step closure preserves the left operand's name (each
such source closure ends in `.rename(ser.name)` or is a name-preserving
pandas call); `rename`, `fill_null` and `sorted_indices` are excluded by
`EOp.keepsName`. -/
theorem applySeries_name (op : EOp) (s : Series) (r : RVal) (t : Series)
    (hop : op.keepsName = true) (h : applySeries op s r = Except.ok t) :
    t.name = s.name := by
  cases op with
  | eq => exact seriesBinOp_name _ s r t h
  | ne => exact seriesBinOp_name _ s r t h
  | ge => exact seriesBinOp_name _ s r t h
  | gt => exact seriesBinOp_name _ s r t h
  | le => exact seriesBinOp_name _ s r t h
  | lt => exact seriesBinOp_name _ s r t h
  | andOp => exact seriesBinOp_name _ s r t h
  | orOp => exact seriesBinOp_name _ s r t h
  | add => exact seriesBinOp_name _ s r t h
  | sub => exact seriesBinOp_name _ s r t h
  | mul => exact seriesBinOp_name _ s r t h
  | floordiv => exact seriesBinOp_name _ s r t h
  | mod => exact seriesBinOp_name _ s r t h
  | filterRows => exact seriesFilter_name s r t h
  | invertOp => simp only [applySeries, Except.ok.injEq] at h; rw [← h]
  | isNullOp => simp only [applySeries, Except.ok.injEq] at h; rw [← h]
  | isNanOp => simp only [applySeries, Except.ok.injEq] at h; rw [← h]
  | fillNanOp v => simp only [applySeries, Except.ok.injEq] at h; rw [← h]
  | fillNullOp v => simp [EOp.keepsName] at hop
  | sortOp asc => simp only [applySeries, Except.ok.injEq] at h; rw [← h]
  | sortedIndicesOp asc => simp [EOp.keepsName] at hop
  | renameOp n => simp [EOp.keepsName] at hop

/-! ### Lemmas about sorting -/

theorem mem_orderedInsert (le : Cell → Cell → Bool) (c x : Cell) :
    ∀ (l : List Cell), x ∈ orderedInsert le c l → x = c ∨ x ∈ l
  | [] => fun h => by simpa [orderedInsert] using h
  | y :: ys => fun h => by
      by_cases hle : le c y = true
      · simp only [orderedInsert, if_pos hle] at h
        exact (List.mem_cons.mp h).imp id id
      · simp only [orderedInsert, if_neg hle] at h
        rcases List.mem_cons.mp h with h1 | h1
        · exact Or.inr (by simp [h1])
        · rcases mem_orderedInsert le c x ys h1 with h2 | h2
          · exact Or.inl h2
          · exact Or.inr (List.mem_cons_of_mem _ h2)

theorem mem_insertionSort (le : Cell → Cell → Bool) (x : Cell) :
    ∀ (l : List Cell), x ∈ insertionSort le l → x ∈ l
  | [] => fun h => by simpa [insertionSort] using h
  | y :: ys => fun h => by
      rcases mem_orderedInsert le y x (insertionSort le ys)
          (by simpa [insertionSort] using h) with h1 | h1
      · simp [h1]
      · exact List.mem_cons_of_mem y (mem_insertionSort le x ys h1)

/-- In `sort_values`' output every missing (null/NaN) slot sits after every
keyed slot: once a missing slot occurs, everything after it is missing. -/
theorem sortCells_missing_last (asc : Bool) (l : List Cell) (i j : Nat)
    (ci cj : Cell) (hij : i ≤ j)
    (hi : (sortCells asc l)[i]? = some ci) (hj : (sortCells asc l)[j]? = some cj)
    (hm : cellMissing ci = true) : cellMissing cj = true := by
  have hAmem : ∀ x ∈ insertionSort (sortLe asc) (l.filter (fun c => !cellMissing c)),
      cellMissing x = false := by
    intro x hx
    have hx' := mem_insertionSort _ _ _ hx
    have := (List.mem_filter.mp hx').2
    simpa using this
  have hBmem : ∀ x ∈ l.filter cellMissing, cellMissing x = true := by
    intro x hx
    exact (List.mem_filter.mp hx).2
  rw [sortCells] at hi hj
  by_cases hiA : i < (insertionSort (sortLe asc) (l.filter (fun c => !cellMissing c))).length
  · rw [List.getElem?_append, if_pos hiA] at hi
    have : ci ∈ insertionSort (sortLe asc) (l.filter (fun c => !cellMissing c)) := by
      obtain ⟨hlt, heq⟩ := List.getElem?_eq_some.mp hi
      exact heq ▸ List.getElem_mem _
    rw [hAmem ci this] at hm
    cases hm
  · push_neg at hiA
    rw [List.getElem?_append, if_neg (by omega)] at hj
    have : cj ∈ l.filter cellMissing := by
      obtain ⟨hlt, heq⟩ := List.getElem?_eq_some.mp hj
      exact heq ▸ List.getElem_mem _
    exact hBmem cj this

/-! ### Lemmas about construction-time validation -/

theorem hasDuplicate_eq_false_iff (l : List String) :
    hasDuplicate l = false ↔ l.Nodup := by
  induction l with
  | nil => simp [hasDuplicate]
  | cons h t ih => simp [hasDuplicate, List.nodup_cons, ih, Bool.or_eq_false_iff]

theorem hasDuplicate_append_mem (l : List String) (x : String) (hx : x ∈ l) :
    hasDuplicate (l ++ [x]) = true := by
  by_contra hfalse
  have hnd := hasDuplicate_eq_false_iff (l ++ [x]) |>.mp (by
    cases hd : hasDuplicate (l ++ [x])
    · rfl
    · exact absurd hd hfalse)
  rcases List.nodup_append.mp hnd with ⟨-, -, hdisj⟩
  exact hdisj hx (by simp)

theorem hasDuplicate_append_fresh (l : List String) (x : String)
    (hnd : hasDuplicate l = false) (hx : x ∉ l) :
    hasDuplicate (l ++ [x]) = false := by
  rw [hasDuplicate_eq_false_iff] at hnd ⊢
  rw [List.nodup_append]
  refine ⟨hnd, List.nodup_singleton x, ?_⟩
  intro a ha hax
  simp only [List.mem_singleton] at hax
  exact hx (hax ▸ ha)

theorem mkPandasDataFrame_ok {cols : List Series} {v : String} {df : PandasDF}
    (h : mkPandasDataFrame cols v = Except.ok df) : df = PandasDF.mk cols v := by
  unfold mkPandasDataFrame at h
  split at h
  · cases h
  · split at h
    · exact (Except.ok.inj h).symm
    · cases h

theorem mkPandasDataFrame_success (cols : List Series) (v : String)
    (hnd : hasDuplicate (cols.map Series.name) = false)
    (hv : supportedVersions.contains v = true) :
    mkPandasDataFrame cols v = Except.ok (PandasDF.mk cols v) := by
  have hv' : v ∈ supportedVersions := by simpa using hv
  simp [mkPandasDataFrame, hnd, hv']

/-! ### Lemmas about the update splice -/

theorem map_name_replace (cols : List Series) (s : Series) :
    (cols.map (fun c => if c.name == s.name then s else c)).map Series.name
      = cols.map Series.name := by
  rw [List.map_map]
  apply List.map_congr_left
  intro a _
  by_cases h : a.name = s.name
  · simp [Function.comp, h]
  · simp [Function.comp, h]

theorem find?_map_replace_self (cols : List Series) (s : Series)
    (hmem : s.name ∈ cols.map Series.name) :
    (cols.map (fun c => if c.name == s.name then s else c)).find?
      (fun c => c.name == s.name) = some s := by
  induction cols with
  | nil => simp at hmem
  | cons c cs ih =>
      by_cases h : c.name = s.name
      · rw [List.map_cons, if_pos (by simp [h]), List.find?_cons_of_pos _ (by simp)]
      · rw [List.map_cons, if_neg (by simp [h]),
          List.find?_cons_of_neg _ (by simp [h])]
        apply ih
        rw [List.map_cons] at hmem
        rcases List.mem_cons.mp hmem with h1 | h1
        · exact absurd h1.symm h
        · exact h1

theorem find?_map_replace_other (cols : List Series) (s : Series) (n : String)
    (hne : n ≠ s.name) :
    (cols.map (fun c => if c.name == s.name then s else c)).find?
        (fun c => c.name == n)
      = cols.find? (fun c => c.name == n) := by
  induction cols with
  | nil => rfl
  | cons c cs ih =>
      by_cases h : c.name = s.name
      · rw [List.map_cons, if_pos (by simp [h]),
          List.find?_cons_of_neg _ (by simp only [beq_iff_eq]; exact Ne.symm hne),
          List.find?_cons_of_neg _ (by simp only [beq_iff_eq, h]; exact Ne.symm hne),
          ih]
      · cases hcn : (c.name == n) with
        | true =>
            rw [List.map_cons, if_neg (by simp [h]),
              List.find?_cons_of_pos _ (by exact hcn),
              List.find?_cons_of_pos _ (by exact hcn)]
        | false =>
            rw [List.map_cons, if_neg (by simp [h]),
              List.find?_cons_of_neg _ (by simp [hcn]),
              List.find?_cons_of_neg _ (by simp [hcn]), ih]

/-! ### Lemmas about the groupby validation -/

theorem validateResult_ok (g : PandasGroupBy) (result : List Series)
    (h : g.validateResult result = Except.ok ()) :
    ∀ n ∈ g.df.names, n ∈ result.map Series.name := by
  intro n hn
  unfold PandasGroupBy.validateResult at h
  split at h
  · rename_i hemp
    rw [List.isEmpty_iff] at hemp
    by_contra hmem
    have : n ∈ g.df.names.filter (fun m => !((result.map Series.name).contains m)) := by
      rw [List.mem_filter]
      exact ⟨hn, by simpa using hmem⟩
    rw [hemp] at this
    cases this
  · cases h

theorem aggChain_preserves (g : PandasGroupBy) (result : List Series) (r : PandasDF)
    (h : (do
        g.validateResult result
        mkPandasDataFrame result g.df.apiVersion) = Except.ok r) :
    ∀ n ∈ g.df.names, n ∈ r.names := by
  cases hv : g.validateResult result with
  | error e => rw [hv] at h; cases h
  | ok u =>
      cases u
      rw [hv] at h
      replace h : mkPandasDataFrame result g.df.apiVersion = Except.ok r := h
      have hc := mkPandasDataFrame_ok h
      intro n hn
      have := validateResult_ok g result hv n hn
      simpa [PandasDF.names, hc] using this

/-- Definitional reduction of the `Except` bind on a success value. -/
theorem except_bind_ok {α β : Type} (a : α) (f : α → Except PdError β) :
    (Except.ok a >>= f) = f a := rfl

/-- Definitional reduction of the `Except` bind on an error value. -/
theorem except_bind_err {α β : Type} (er : PdError) (f : α → Except PdError β) :
    ((Except.error er : Except PdError α) >>= f) = Except.error er := rfl

/-! ## The claims -/

/-- C1, counterexample: resolving `col("a").rename("b")` against a table with
column `a` yields a column named `"b"` — the name assigned by the final
step's elementary operation — while the expression's `output_name` is still
`"a"` (rename does not update it), so the resolved column does *not* carry
`output_name`. -/
theorem c1_counterexample :
    resolveExpr c1Table c1Expr
        = Except.ok (RVal.series (Series.mk "b" [Cell.num 1, Cell.num 2]))
      ∧ c1Expr.outputName = "a"
      ∧ (Series.mk "b" [Cell.num 1, Cell.num 2]).name ≠ c1Expr.outputName :=
  ⟨rfl, rfl, by decide⟩

/-- C1, amended: the resolved column carries the name assigned by the final
step's elementary operation, not `output_name`: resolution applies the last
recorded closure to the resolution of the embedded prefix expression; the
comparison, boolean, arithmetic, filter, invert, is_null/is_nan, fill_nan and
sort closures preserve the left operand's name; `rename`'s closure assigns
its argument (while leaving `output_name` unchanged); and `fill_null`'s
extension-dtype closure and `sorted_indices`' closure return an unnamed
series. -/
theorem c1_amended (df : PandasDF) (e : PandasExpression) (op : EOp)
    (rhs : Operand) (s t : Series) (r : RVal) (n : String) (v : Cell)
    (asc : Bool) :
    (resolveExpr df (e.recordCall op rhs none) =
      (do
        let l ← resolveExpr df e
        let r' ← resolveOperand df rhs
        applyCall op l r'))
    ∧ (op.keepsName = true → applySeries op s r = Except.ok t → t.name = s.name)
    ∧ applySeries (EOp.renameOp n) s r = Except.ok (s.rename n)
    ∧ (∀ u, applySeries (EOp.fillNullOp v) s r = Except.ok u → u.name = "")
    ∧ (∀ u, applySeries (EOp.sortedIndicesOp asc) s r = Except.ok u → u.name = "")
    ∧ (e.renameE n).outputName = e.outputName := by
  refine ⟨resolveExpr_recordCall df e op rhs none,
    fun hop h => applySeries_name op s r t hop h, rfl, ?_, ?_, ?_⟩
  · intro u h
    rw [← Except.ok.inj h]
  · intro u h
    rw [← Except.ok.inj h]
  · obtain ⟨rn, oname, bc, cs⟩ := e
    rfl

/-- Closed witness for the amended C1 at concrete steps: addition keeps the
name, `fill_null` and `sorted_indices` yield unnamed results. -/
theorem c1_amended_witness :
    EOp.add.keepsName = true
    ∧ applySeries EOp.add (Series.mk "a" [Cell.num 1]) (RVal.scalar (Cell.num 2))
        = Except.ok (Series.mk "a" [Cell.num 3])
    ∧ (Series.mk "a" [Cell.num 3]).name = (Series.mk "a" [Cell.num 1]).name
    ∧ (Series.mk "" [Cell.num 5]).name = ""
    ∧ (Series.mk "" [Cell.num 0]).name = "" :=
  ⟨rfl, rfl,
    (c1_amended c1Table (colExpr "a") EOp.add (Operand.scalar (Cell.num 2))
        (Series.mk "a" [Cell.num 1]) (Series.mk "a" [Cell.num 3])
        (RVal.scalar (Cell.num 2)) "b" (Cell.num 5) true).2.1 rfl rfl,
    (c1_amended c1Table (colExpr "a") EOp.add (Operand.scalar (Cell.num 2))
        (Series.mk "a" [Cell.null]) (Series.mk "a" [Cell.num 3])
        RVal.pyNone "b" (Cell.num 5) true).2.2.2.1
      (Series.mk "" [Cell.num 5]) rfl,
    (c1_amended c1Table (colExpr "a") EOp.add (Operand.scalar (Cell.num 2))
        (Series.mk "a" [Cell.null]) (Series.mk "a" [Cell.num 3])
        RVal.pyNone "b" (Cell.num 5) true).2.2.2.2.1
      (Series.mk "" [Cell.num 0]) rfl⟩

/-- C2: resolution is referentially transparent — with the mutable state
(the expression object and the table) threaded explicitly, resolving returns
both unchanged, resolving the same Expression twice against the same Table
yields equal results, and resolving the once-used Expression against a
different Table yields the same result as resolving it fresh. -/
theorem c2_referential_transparency (e : PandasExpression) (T Tother : PandasDF) :
    (resolveSt T e).2.1 = e
    ∧ (resolveSt T e).2.2 = T
    ∧ (resolveSt ((resolveSt T e).2.2) ((resolveSt T e).2.1)).1 = (resolveSt T e).1
    ∧ (resolveSt Tother ((resolveSt T e).2.1)).1 = (resolveSt Tother e).1 := by
  obtain ⟨rn, oname, bc, cs⟩ := e
  cases cs with
  | nil => exact ⟨rfl, rfl, rfl, rfl⟩
  | cons c rest => exact ⟨rfl, rfl, rfl, rfl⟩

/-- C3, counterexample: `PandasColumn.rename` executes `self._name = name`,
so after `rename("b")` the receiver's name is `"b"`, not its original
`"a"` — a Column operation that does mutate its receiver. -/
theorem c3_counterexample :
    (c3Col.renameC "b").2.name ≠ c3Col.name
    ∧ (c3Col.renameC "b").2.name = "b" :=
  ⟨by decide, rfl⟩

/-- C3, amended: chaining any operation onto an Expression returns a new
Expression with the original appended as the last step's left operand — the
original's root_names, step list and output_name are untouched and it
resolves exactly as before; Table operations return fresh tables; but
`Column.rename` mutates the receiver's `_name` field to the new name (its
backing values are unchanged). -/
theorem c3_amended (e : PandasExpression) (op : EOp) (rhs : Operand)
    (onm : Option String) (T : PandasDF) (c : PandasColumn) (n : String) :
    (e.recordCall op rhs onm).rootNames = e.rootNames
    ∧ (e.recordCall op rhs onm).calls = e.calls ++ [CallStep.mk op e rhs]
    ∧ (e.recordCall op rhs onm).outputName = onm.getD e.outputName
    ∧ (resolveExpr T (e.recordCall op rhs onm) =
        (do
          let l ← resolveExpr T e
          let r ← resolveOperand T rhs
          applyCall op l r))
    ∧ (c.renameC n).2.series = c.series
    ∧ (c.renameC n).2.name = n := by
  obtain ⟨rn, oname, bc, cs⟩ := e
  exact ⟨rfl, rfl, rfl, resolveExpr_recordCall T _ op rhs onm, rfl, rfl⟩

/-- C4, code behavior at the failing input: `PandasColumn.__gt__` dispatches
to the `"__lt__"` expression step, so `[1,2,3] > 2` returns the *less-than*
mask `[true,false,false]` instead of the greater-than mask
`[false,false,true]`; and `PandasColumn.filter` raises (it calls
`PandasDataFrame(api_version=...)` without the required `dataframe` argument
and accesses the absent `to_expression` attribute, returning nothing) instead
of returning the row-restricted Column. -/
theorem c4_code_behavior :
    c4Col.gtC (Operand.scalar (Cell.num 2))
        = Except.ok (PandasColumn.mk "a"
            (Series.mk "a" [Cell.bool true, Cell.bool false, Cell.bool false])
            "2023.09-beta")
    ∧ c4Col.series.data.map (fun x => cellGt x (Cell.num 2))
        = [Cell.bool false, Cell.bool false, Cell.bool true]
    ∧ ([Cell.bool true, Cell.bool false, Cell.bool false]
        ≠ [Cell.bool false, Cell.bool false, Cell.bool true])
    ∧ c4Col.filterC (PandasColumn.mk "m"
          (Series.mk "m" [Cell.bool true, Cell.bool false, Cell.bool true])
          "2023.09-beta")
        = Except.error PdError.typeErr :=
  ⟨rfl, rfl, by decide, rfl⟩

/-- C5, counterexample: `PandasGroupBy.size` returns
`PandasDataFrame(self.grouped.size())` without calling `_validate_result`;
on `{key:[1,1], b:[1,2]}` grouped by `key`, the underlying result is
`{key:[1], size:[2]}` — it lacks the source column `b` — yet `size` returns
it successfully instead of raising the AssertionError the claim requires of
every aggregation method. -/
theorem c5_counterexample :
    c5Group.runAgg AggMethod.size
        = Except.ok (PandasDF.mk
            [Series.mk "key" [Cell.num 1], Series.mk "size" [Cell.num 2]]
            "2023.09-beta")
    ∧ "b" ∈ c5Group.df.names
    ∧ "b" ∉ (PandasDF.mk
          [Series.mk "key" [Cell.num 1], Series.mk "size" [Cell.num 2]]
          "2023.09-beta").names :=
  ⟨rfl, by decide, by decide⟩

/-- C5, amended: every aggregation method *except `size`* runs
`_validate_result` before returning, so whenever such a method returns a
Table at all, that Table retains every column of the source Table; `size`
returns the keys plus a `"size"` count column without the check. -/
theorem c5_amended (g : PandasGroupBy) (m : AggMethod) (r : PandasDF)
    (hm : m ≠ AggMethod.size) (h : g.runAgg m = Except.ok r) :
    ∀ n ∈ g.df.names, n ∈ r.names := by
  cases m with
  | size => exact absurd rfl hm
  | any =>
      cases hb : g.validateBooleanness with
      | error er =>
          replace h : g.validateBooleanness >>= (fun _ => (do
            g.validateResult (groupedAgg aggAny g.df g.keys)
            mkPandasDataFrame (groupedAgg aggAny g.df g.keys) g.df.apiVersion))
              = Except.ok r := h
          rw [hb, except_bind_err] at h
          cases h
      | ok u =>
          cases u
          replace h : g.validateBooleanness >>= (fun _ => (do
            g.validateResult (groupedAgg aggAny g.df g.keys)
            mkPandasDataFrame (groupedAgg aggAny g.df g.keys) g.df.apiVersion))
              = Except.ok r := h
          rw [hb, except_bind_ok] at h
          exact aggChain_preserves g _ r h
  | all =>
      cases hb : g.validateBooleanness with
      | error er =>
          replace h : g.validateBooleanness >>= (fun _ => (do
            g.validateResult (groupedAgg aggAll g.df g.keys)
            mkPandasDataFrame (groupedAgg aggAll g.df g.keys) g.df.apiVersion))
              = Except.ok r := h
          rw [hb, except_bind_err] at h
          cases h
      | ok u =>
          cases u
          replace h : g.validateBooleanness >>= (fun _ => (do
            g.validateResult (groupedAgg aggAll g.df g.keys)
            mkPandasDataFrame (groupedAgg aggAll g.df g.keys) g.df.apiVersion))
              = Except.ok r := h
          rw [hb, except_bind_ok] at h
          exact aggChain_preserves g _ r h
  | min => exact aggChain_preserves g _ r h
  | max => exact aggChain_preserves g _ r h
  | sum => exact aggChain_preserves g _ r h
  | prod => exact aggChain_preserves g _ r h
  | median => exact aggChain_preserves g _ r h
  | mean => exact aggChain_preserves g _ r h
  | std => exact aggChain_preserves g _ r h
  | var => exact aggChain_preserves g _ r h

/-- Closed witness for the amended C5: `sum` on the same GroupBy retains the
source column `b`. -/
theorem c5_amended_witness :
    AggMethod.sum ≠ AggMethod.size
    ∧ c5Group.runAgg AggMethod.sum
        = Except.ok (PandasDF.mk
            [Series.mk "key" [Cell.num 1], Series.mk "b" [Cell.num 3]]
            "2023.09-beta")
    ∧ "b" ∈ (PandasDF.mk
          [Series.mk "key" [Cell.num 1], Series.mk "b" [Cell.num 3]]
          "2023.09-beta").names :=
  ⟨by decide, rfl,
    c5_amended c5Group AggMethod.sum
      (PandasDF.mk [Series.mk "key" [Cell.num 1], Series.mk "b" [Cell.num 3]]
        "2023.09-beta")
      (by decide) rfl "b" (by decide)⟩

/-- C6: on a nullable floating column resolved through the expression
machinery, `is_nan` is true exactly on the NaN slots (in particular false on
null slots), `is_null` is true exactly on the null slots (in particular false
on NaN slots), `fill_nan(v)` changes exactly the NaN slots and never a
null-but-not-NaN slot, and `fill_null(v)` changes exactly the null slots and
never a NaN-but-not-null slot. -/
theorem c6_null_nan_distinction (T : PandasDF) (nm : String) (s : Series)
    (v : Cell) (h : T.lookup nm = some s) :
    (resolveExpr T ((colExpr nm).isNanE)
        = Except.ok (RVal.series (Series.mk s.name (s.data.map cellIsNan)))
      ∧ ∀ (i : Nat) (c : Cell), s.data[i]? = some c →
          ((s.data.map cellIsNan)[i]? = some (Cell.bool true) ↔ c = Cell.nan))
    ∧ (resolveExpr T ((colExpr nm).isNullE)
        = Except.ok (RVal.series (Series.mk s.name (s.data.map cellIsNull)))
      ∧ ∀ (i : Nat) (c : Cell), s.data[i]? = some c →
          ((s.data.map cellIsNull)[i]? = some (Cell.bool true) ↔ c = Cell.null))
    ∧ (resolveExpr T ((colExpr nm).fillNanE v)
        = Except.ok (RVal.series (Series.mk s.name (s.data.map (cellFillNan v))))
      ∧ ∀ (i : Nat) (c : Cell), s.data[i]? = some c →
          (c = Cell.nan → (s.data.map (cellFillNan v))[i]? = some v)
          ∧ (c ≠ Cell.nan → (s.data.map (cellFillNan v))[i]? = some c))
    ∧ (resolveExpr T ((colExpr nm).fillNullE v)
        = Except.ok (RVal.series (Series.mk "" (s.data.map (cellFillNull v))))
      ∧ ∀ (i : Nat) (c : Cell), s.data[i]? = some c →
          (c = Cell.null → (s.data.map (cellFillNull v))[i]? = some v)
          ∧ (c ≠ Cell.null → (s.data.map (cellFillNull v))[i]? = some c)) := by
  refine ⟨⟨?_, ?_⟩, ⟨?_, ?_⟩, ⟨?_, ?_⟩, ⟨?_, ?_⟩⟩
  · rw [PandasExpression.isNanE, resolveExpr_recordCall, resolveExpr_colExpr T nm s h]
    rfl
  · intro i c hc
    rw [List.getElem?_map, hc]
    cases c <;> simp [cellIsNan]
  · rw [PandasExpression.isNullE, resolveExpr_recordCall, resolveExpr_colExpr T nm s h]
    rfl
  · intro i c hc
    rw [List.getElem?_map, hc]
    cases c <;> simp [cellIsNull]
  · rw [PandasExpression.fillNanE, resolveExpr_recordCall, resolveExpr_colExpr T nm s h]
    rfl
  · intro i c hc
    constructor
    · intro he
      rw [List.getElem?_map, hc, he]
      simp [cellFillNan]
    · intro he
      rw [List.getElem?_map, hc]
      simp [cellFillNan, he]
  · rw [PandasExpression.fillNullE, resolveExpr_recordCall, resolveExpr_colExpr T nm s h]
    rfl
  · intro i c hc
    constructor
    · intro he
      rw [List.getElem?_map, hc, he]
      rfl
    · intro he
      rw [List.getElem?_map, hc]
      cases c with
      | null => exact absurd rfl he
      | nan => rfl
      | num q => rfl
      | bool b => rfl

/-- Closed witness for C6 on the spec's concrete column `[1.0, NaN, null]`:
`is_nan` yields `[false, true, false]` and `is_null` yields
`[false, false, true]`. -/
theorem c6_witness :
    resolveExpr c6Table ((colExpr "x").isNanE)
        = Except.ok (RVal.series
            (Series.mk "x" [Cell.bool false, Cell.bool true, Cell.bool false]))
    ∧ resolveExpr c6Table ((colExpr "x").isNullE)
        = Except.ok (RVal.series
            (Series.mk "x" [Cell.bool false, Cell.bool false, Cell.bool true]))
    ∧ ((([Cell.num 1, Cell.nan, Cell.null].map cellIsNan)[1]?
          = some (Cell.bool true)) ↔ Cell.nan = Cell.nan) :=
  ⟨rfl, rfl,
    (c6_null_nan_distinction c6Table "x"
        (Series.mk "x" [Cell.num 1, Cell.nan, Cell.null]) (Cell.num 0) rfl).1.2
      1 Cell.nan rfl⟩

/-- C7: `divmod(a, b)` is a derived pair — the quotient expression is the
floor-division chain and the remainder expression is `a - quotient * b`, two
independent Expressions — and for same-length numeric columns with elementwise
non-zero `b`, the resolved pair satisfies `a == quotient * b + remainder`
elementwise. -/
theorem c7_divmod (T : PandasDF) (na nb : String) (sa sb : Series)
    (ha : T.lookup na = some sa) (hb : T.lookup nb = some sb)
    (hlen : sa.data.length = sb.data.length) :
    ((colExpr na).divmodE (Operand.expr (colExpr nb))).1
        = (colExpr na).floordivE (Operand.expr (colExpr nb))
    ∧ ((colExpr na).divmodE (Operand.expr (colExpr nb))).2
        = (colExpr na).subE (Operand.expr
            (((colExpr na).floordivE (Operand.expr (colExpr nb))).mulE
              (Operand.expr (colExpr nb))))
    ∧ resolveExpr T (((colExpr na).divmodE (Operand.expr (colExpr nb))).1)
        = Except.ok (RVal.series (Series.mk sa.name
            (zipPad cellFloordiv sa.data sb.data)))
    ∧ resolveExpr T (((colExpr na).divmodE (Operand.expr (colExpr nb))).2)
        = Except.ok (RVal.series (Series.mk sa.name
            (zipPad cellSub sa.data
              (zipPad cellMul (zipPad cellFloordiv sa.data sb.data) sb.data))))
    ∧ ∀ (i : Nat) (x y qc rc : Cell),
        sa.data[i]? = some x → sb.data[i]? = some y →
        (zipPad cellFloordiv sa.data sb.data)[i]? = some qc →
        (zipPad cellSub sa.data
          (zipPad cellMul (zipPad cellFloordiv sa.data sb.data) sb.data))[i]?
          = some rc →
        (∃ qx qy : ℤ, x = Cell.num qx ∧ y = Cell.num qy ∧ qy ≠ 0) →
        cellAdd (cellMul qc y) rc = x := by
  refine ⟨rfl, rfl, ?_, ?_, ?_⟩
  · rw [show ((colExpr na).divmodE (Operand.expr (colExpr nb))).1
        = (colExpr na).floordivE (Operand.expr (colExpr nb)) from rfl,
      PandasExpression.floordivE, resolveExpr_recordCall, resolveOperand_exprArg,
      resolveExpr_colExpr T na sa ha, resolveExpr_colExpr T nb sb hb]
    rfl
  · rw [show ((colExpr na).divmodE (Operand.expr (colExpr nb))).2
        = (colExpr na).subE (Operand.expr
            (((colExpr na).floordivE (Operand.expr (colExpr nb))).mulE
              (Operand.expr (colExpr nb)))) from rfl,
      PandasExpression.subE, resolveExpr_recordCall, resolveOperand_exprArg,
      PandasExpression.mulE, resolveExpr_recordCall, resolveOperand_exprArg,
      PandasExpression.floordivE, resolveExpr_recordCall, resolveOperand_exprArg,
      resolveExpr_colExpr T na sa ha, resolveExpr_colExpr T nb sb hb]
    rfl
  · rintro i x y qc rc hx hy hq hr ⟨qx, qy, hqx, hqy, hqy0⟩
    have hq' := zipPad_getElem? cellFloordiv sa.data sb.data i x y hx hy
    rw [hq] at hq'
    have hqc := Option.some.inj hq'
    have hm := zipPad_getElem? cellMul (zipPad cellFloordiv sa.data sb.data)
      sb.data i qc y hq hy
    have hr' := zipPad_getElem? cellSub sa.data
      (zipPad cellMul (zipPad cellFloordiv sa.data sb.data) sb.data) i x
      (cellMul qc y) hx hm
    rw [hr] at hr'
    have hrc := Option.some.inj hr'
    subst hqx hqy hqc hrc
    have hbeq : (qy == 0) = false := by simpa using hqy0
    simp only [cellFloordiv, cellMul, cellSub, cellAdd, cellArith, hbeq,
      Bool.false_eq_true, if_false, Cell.num.injEq]
    ring

/-- Closed witness for C7 at `a = [7, -7]`, `b = [2, 3]`: quotient
`[3, -3]`, remainder `[1, 2]`, and `7 = 3*2 + 1`. -/
theorem c7_witness :
    resolveExpr c7Table (((colExpr "a").divmodE (Operand.expr (colExpr "b"))).1)
        = Except.ok (RVal.series (Series.mk "a" [Cell.num 3, Cell.num (-3)]))
    ∧ resolveExpr c7Table (((colExpr "a").divmodE (Operand.expr (colExpr "b"))).2)
        = Except.ok (RVal.series (Series.mk "a" [Cell.num 1, Cell.num 2]))
    ∧ cellAdd (cellMul (Cell.num 3) (Cell.num 2)) (Cell.num 1) = Cell.num 7 :=
  ⟨rfl, rfl,
    (c7_divmod c7Table "a" "b"
        (Series.mk "a" [Cell.num 7, Cell.num (-7)])
        (Series.mk "b" [Cell.num 2, Cell.num 3]) rfl rfl rfl).2.2.2.2
      0 (Cell.num 7) (Cell.num 2) (Cell.num 3) (Cell.num 1) rfl rfl rfl rfl
      ⟨7, 2, rfl, rfl, by decide⟩⟩

/-- C8, counterexample: on a Table carried by api version `2023.08-beta`
(a supported version), `update_columns` raises `NotImplementedError` before
any resolution or name check, even for an expression whose resolved name
`"zzz"` is absent from the Table — not the ColumnNotFound error the claim
requires. -/
theorem c8_counterexample :
    resolveExpr c8Table c8Expr
        = Except.ok (RVal.series (Series.mk "zzz" [Cell.num 1]))
    ∧ ("zzz" : String) ∉ c8Table.names
    ∧ c8Table.updateColumns [c8Expr] = Except.error PdError.notImplemented
    ∧ PdError.notImplemented ≠ PdError.columnNotFound :=
  ⟨rfl, by decide, rfl, by decide⟩

/-- C8, amended: on a Table whose api version is `2023.09-beta` (for
`2023.08-beta` the method raises NotImplementedError unconditionally), if the
expression's resolved name is absent from the Table's columns,
`update_columns` fails — the source reaches its intended missing-target
`raise ValueError(f"column {col.name} ...")`, but evaluating `col.name` on
the Expression raises AttributeError first — and therefore never creates a
column; if the name is present, the result replaces exactly that column and
leaves every other column and the column-name list unchanged. -/
theorem c8_amended (df : PandasDF) (e : PandasExpression) (s : Series)
    (hv : df.apiVersion = "2023.09-beta")
    (hres : resolveExpr df e = Except.ok (RVal.series s)) :
    (s.name ∉ df.names →
      df.updateColumns [e] = Except.error PdError.attributeErr)
    ∧ (s.name ∈ df.names → hasDuplicate df.names = false →
        ∃ df', df.updateColumns [e] = Except.ok df'
          ∧ df'.names = df.names
          ∧ df'.lookup s.name = some s
          ∧ ∀ n, n ≠ s.name → df'.lookup n = df.lookup n) := by
  have hguard : (df.apiVersion == "2023.08-beta") = false := by
    rw [hv]
    rfl
  constructor
  · intro hmem
    have hnex : ¬ ∃ a ∈ df.cols, a.name = s.name := by
      rintro ⟨a, ha, hna⟩
      exact hmem (by simpa [PandasDF.names] using ⟨a, ha, hna⟩)
    rw [PandasDF.updateColumns, hguard]
    simp [List.foldlM_cons, List.foldlM_nil, hres, except_bind_ok,
      except_bind_err, hnex]
  · intro hmem hnd
    have hex : ∃ a ∈ df.cols, a.name = s.name := by
      simpa [PandasDF.names, List.mem_map] using hmem
    refine ⟨PandasDF.mk
      (df.cols.map (fun c => if c.name == s.name then s else c)) df.apiVersion,
      ?_, ?_, ?_, ?_⟩
    · rw [PandasDF.updateColumns, hguard]
      have hmk := mkPandasDataFrame_success
        (df.cols.map (fun c => if c.name == s.name then s else c)) df.apiVersion
        (by rw [map_name_replace]; exact hnd)
        (by rw [hv]; rfl)
      simp only [beq_iff_eq] at hmk
      simp [List.foldlM_cons, List.foldlM_nil, hres, except_bind_ok,
        except_bind_err, hex, hmk]
    · show (df.cols.map (fun c => if c.name == s.name then s else c)).map Series.name
        = df.cols.map Series.name
      exact map_name_replace df.cols s
    · exact find?_map_replace_self df.cols s (by simpa [PandasDF.names] using hmem)
    · intro n hn
      exact find?_map_replace_other df.cols s n hn

/-- Closed witness for the amended C8: on a `2023.09-beta` table, updating
under the absent resolved name `"zzz"` fails with the AttributeError from the
missing-target branch. -/
theorem c8_amended_witness :
    c8OkTable.updateColumns [(colExpr "a").renameE "zzz"]
        = Except.error PdError.attributeErr
    ∧ ("zzz" : String) ∉ c8OkTable.names :=
  ⟨(c8_amended c8OkTable ((colExpr "a").renameE "zzz")
      (Series.mk "zzz" [Cell.num 1]) rfl rfl).1 (by decide),
   by decide⟩

/-- C9, counterexample: sorting the column `[null, 1, 2]` with
`nulls_position="first"` yields `[1, 2, null]` — the null is placed last,
not first — both through the Expression chain and through `DataFrame.sort`,
because neither forwards `nulls_position` to the engine. -/
theorem c9_counterexample :
    resolveExpr c9Table ((colExpr "a").sortE true "first")
        = Except.ok (RVal.series
            (Series.mk "a" [Cell.num 1, Cell.num 2, Cell.null]))
    ∧ c9Table.sortDF none true "first"
        = Except.ok (PandasDF.mk
            [Series.mk "a" [Cell.num 1, Cell.num 2, Cell.null]] "2023.09-beta")
    ∧ nullsAllFirst [Cell.num 1, Cell.num 2, Cell.null] = false
    ∧ Cell.null ∈ [Cell.num 1, Cell.num 2, Cell.null] :=
  ⟨rfl, rfl, rfl, by decide⟩

/-- C9, amended: the `nulls_position` argument is accepted but ignored by
both `Expression.sort` and `DataFrame.sort` (the source never forwards it to
`sort_values`), so the result is identical for `"first"` and `"last"`; and
null/NaN values are always placed after all non-missing values (the engine's
default `na_position="last"`), independent of the `ascending` flag. -/
theorem c9_amended (e : PandasExpression) (asc : Bool) (np np' : String)
    (df : PandasDF) (keys : Option (List String)) (s t : Series) (r : RVal) :
    e.sortE asc np = e.sortE asc np'
    ∧ df.sortDF keys asc np = df.sortDF keys asc np'
    ∧ (applySeries (EOp.sortOp asc) s r = Except.ok t →
        ∀ (i j : Nat) (ci cj : Cell), i ≤ j →
          t.data[i]? = some ci → t.data[j]? = some cj →
          cellMissing ci = true → cellMissing cj = true) := by
  refine ⟨rfl, rfl, ?_⟩
  intro h i j ci cj hij hi hj hm
  have ht : t = Series.mk s.name (sortCells asc s.data) :=
    (Except.ok.inj h).symm
  subst ht
  exact sortCells_missing_last asc s.data i j ci cj hij hi hj hm

/-- Closed witness for the amended C9: sorting `[null, 1]` ascending keeps
the null after the value, and the slot after a missing slot is missing. -/
theorem c9_amended_witness :
    ((colExpr "a").sortE true "first" = (colExpr "a").sortE true "last")
    ∧ applySeries (EOp.sortOp true) (Series.mk "a" [Cell.null, Cell.num 1])
        RVal.pyNone
        = Except.ok (Series.mk "a" [Cell.num 1, Cell.null])
    ∧ cellMissing Cell.null = true :=
  ⟨(c9_amended (colExpr "a") true "first" "last" c9Table none
      (Series.mk "a" [Cell.null, Cell.num 1])
      (Series.mk "a" [Cell.num 1, Cell.null]) RVal.pyNone).1,
   rfl,
   (c9_amended (colExpr "a") true "first" "last" c9Table none
      (Series.mk "a" [Cell.null, Cell.num 1])
      (Series.mk "a" [Cell.num 1, Cell.null]) RVal.pyNone).2.2
     rfl 1 1 Cell.null Cell.null (le_refl 1) rfl rfl rfl⟩

/-- C10: when the expression's resolved column name equals an existing column
name, `insert_column` fails with the duplicate-column-name error raised by
the result frame's construction-time validation (it never replaces or
duplicates the column); when the resolved name is fresh, it returns the
receiver's columns with the new column appended — `insert_column` can only
add a column under a fresh name. -/
theorem c10_insert_duplicate (df : PandasDF) (e : PandasExpression) (s : Series)
    (hres : resolveExpr df e = Except.ok (RVal.series s)) :
    (s.name ∈ df.names →
      df.insertColumn e = Except.error PdError.duplicateNames)
    ∧ (s.name ∉ df.names → hasDuplicate df.names = false →
        supportedVersions.contains df.apiVersion = true →
        df.insertColumn e
          = Except.ok (PandasDF.mk (df.cols ++ [s]) df.apiVersion)) := by
  constructor
  · intro hmem
    have hdup : hasDuplicate ((df.cols ++ [s]).map Series.name) = true := by
      rw [List.map_append]
      exact hasDuplicate_append_mem _ _ hmem
    simp only [List.map_append, List.map_cons, List.map_nil] at hdup
    rw [PandasDF.insertColumn]
    simp [hres, except_bind_ok, mkPandasDataFrame, hdup]
  · intro hmem hnd hv
    have hdup : hasDuplicate ((df.cols ++ [s]).map Series.name) = false := by
      rw [List.map_append]
      exact hasDuplicate_append_fresh _ _ hnd hmem
    have hmk := mkPandasDataFrame_success (df.cols ++ [s]) df.apiVersion hdup hv
    rw [PandasDF.insertColumn]
    simp [hres, except_bind_ok, hmk]


/-- Closed witness for C10: inserting a column resolving to the existing name
`"a"` fails with the duplicate-name error; inserting under the fresh name
`"c"` appends it. -/
theorem c10_witness :
    c10Table.insertColumn ((colExpr "b").renameE "a")
        = Except.error PdError.duplicateNames
    ∧ c10Table.insertColumn ((colExpr "b").renameE "c")
        = Except.ok (PandasDF.mk
            [Series.mk "a" [Cell.num 1], Series.mk "b" [Cell.num 5],
             Series.mk "c" [Cell.num 5]] "2023.09-beta") :=
  ⟨(c10_insert_duplicate c10Table ((colExpr "b").renameE "a")
      (Series.mk "a" [Cell.num 5]) rfl).1 (by decide),
   (c10_insert_duplicate c10Table ((colExpr "b").renameE "c")
      (Series.mk "c" [Cell.num 5]) rfl).2 (by decide) rfl rfl⟩

end DFCompat
